import Mathlib

/-!
Shallow embedding of the Enterprise SSD DVT framework
(`dvt-backend/app/main.py` and the four compatibility test modules),
used to settle the specification's claims about the orchestration engine
and the test modules.

Conventions of the embedding:
* `async` Python functions become pure Lean functions; every awaited
  external check (`_verify_data_integrity`, `_verify_ssd_accessibility`,
  …) is modelled by an oracle parameter recording the boolean the await
  returned.  The simulation in the source always returns `true`; the
  oracles range over all booleans so that every branch of the source is
  live.
* Wall-clock measurements (`time.time()` deltas) are not observable in a
  pure embedding; duration fields are kept in the records (as `ℚ`, since
  the source uses floats) but measured values are modelled as `0` or as
  oracle-supplied values where a claim mentions the field.
* Python dicts (`test_results_db`, the per-suite result dicts) are
  modelled as insertion-ordered association lists with replace-in-place
  overwrite, matching dict semantics.
-/

namespace DVT

/-! ## Boot drive tester (`app/compatibility/boot_drive_tester.py`) -/

/-- `OSType` enum from `boot_drive_tester.py`. -/
inductive OSType
  | UBUNTU
  | CENTOS
  | WINDOWS_2019
deriving DecidableEq, Repr

/-- `.value` of the `OSType` enum members. -/
def OSType.value : OSType → String
  | .UBUNTU => "ubuntu"
  | .CENTOS => "centos"
  | .WINDOWS_2019 => "windows_2019"

/-- Iteration order of `for os_type in OSType` (declaration order). -/
def osTypeList : List OSType := [OSType.UBUNTU, OSType.CENTOS, OSType.WINDOWS_2019]

/-- `BootTestResult` dataclass (the `detailed_logs` debug field, never
read by the backend, is omitted). -/
structure BootTestResult where
  os_type : OSType
  install_success : Bool
  boot_success : Bool
  boot_time_seconds : ℚ
  usability_test_passed : Bool
  error_message : Option String
deriving DecidableEq, Repr

/-- Oracles for the awaited device operations of one boot-suite
execution: the boolean returned by `_verify_ssd_accessibility` inside
`_test_os_installation`, the boolean and measured boot time of
`_test_os_boot`, the boolean of `_test_os_usability`, and an optional
exception raised by the stages (caught by `test_os_boot_compatibility`'s
`except` branch). -/
structure BootEnv where
  install : OSType → Bool
  bootOk : OSType → Bool
  bootTime : OSType → ℚ
  usability : OSType → Bool
  exc : OSType → Option String

/-- `BootDriveTester.test_os_boot_compatibility`: install, then boot,
then usability, each stage short-circuiting on failure. -/
def test_os_boot_compatibility (env : BootEnv) (os : OSType) : BootTestResult :=
  match env.exc os with
  | some e =>
      { os_type := os, install_success := false, boot_success := false
        boot_time_seconds := 0, usability_test_passed := false
        error_message := some e }
  | none =>
      if !env.install os then
        { os_type := os, install_success := false, boot_success := false
          boot_time_seconds := 0, usability_test_passed := false
          error_message := some "OS installation failed" }
      else if !env.bootOk os then
        { os_type := os, install_success := true, boot_success := false
          boot_time_seconds := env.bootTime os, usability_test_passed := false
          error_message := some "OS boot failed" }
      else
        let u := env.usability os
        { os_type := os, install_success := true, boot_success := true
          boot_time_seconds := env.bootTime os, usability_test_passed := u
          error_message := if u then none else some "Usability tests failed" }

/-- `BootDriveTester.run_full_boot_test_suite`: one entry per member of
`OSType`, keyed by `os_type.value`, in enum order. -/
def run_full_boot_test_suite (env : BootEnv) : List (String × BootTestResult) :=
  osTypeList.map (fun os => (os.value, test_os_boot_compatibility env os))

/-! ## System robustness tester
(`app/compatibility/system_robustness_tester.py`) -/

/-- `RobustnessTestType` enum. -/
inductive RobustnessTestType
  | AC_POWER_CYCLE
  | IPMI_POWER_CYCLE
  | IPMI_REBOOT
  | OS_REBOOT
  | SMBUS_MONITORING
  | CTRL_RESET
  | NSSR_RESET
  | FLR_RESET
  | HOT_RESET
  | QUARCH_HOT_SWAP
  | QUARCH_GLITCH
  | NVME_MI_OPENBMC
  | ITP_CSCRIPT
deriving DecidableEq, Repr

/-- `RobustnessTestResult` dataclass (`detailed_logs`, never read by the
backend, is omitted). -/
structure RobustnessTestResult where
  test_type : RobustnessTestType
  test_passed : Bool
  recovery_time_seconds : ℚ
  data_integrity_maintained : Bool
  device_functional_after_test : Bool
  cycle_count : Nat
  error_message : Option String
deriving DecidableEq, Repr

/-- Oracles for one robustness-suite execution: the booleans returned by
the awaited `_verify_data_integrity` / `_verify_device_functionality`
calls made by each scenario, and (for the AC power-cycle scenario, which
performs one pair of checks per cycle) per-cycle booleans. -/
structure RobustEnv where
  integrity : RobustnessTestType → Bool
  functional : RobustnessTestType → Bool
  acIntegrity : Nat → Bool
  acFunctional : Nat → Bool

/-- The `for cycle in range(cycle_count)` loop of
`test_ac_power_cycle`, entered at loop index `cycle` with
`remaining = cfg - cycle` iterations left: each cycle runs both checks
and the first failing cycle aborts the loop with a `cycle + 1` (1-based)
cycle count and `test_passed=False`; when the loop completes, the
configured count is reported with `test_passed=True`.  (Measured
recovery times are modelled as `0`.) -/
def acLoop (intg fnc : Nat → Bool) (cfg : Nat) (cycle : Nat) :
    (remaining : Nat) → RobustnessTestResult
  | 0 =>
      { test_type := .AC_POWER_CYCLE, test_passed := true
        recovery_time_seconds := 0
        data_integrity_maintained := true, device_functional_after_test := true
        cycle_count := cfg, error_message := none }
  | remaining + 1 =>
      let di := intg cycle
      let df := fnc cycle
      if !di || !df then
        { test_type := .AC_POWER_CYCLE, test_passed := false
          recovery_time_seconds := 0
          data_integrity_maintained := di, device_functional_after_test := df
          cycle_count := cycle + 1
          error_message := some ("Failed at cycle " ++ toString (cycle + 1)) }
      else
        acLoop intg fnc cfg (cycle + 1) remaining

/-- `SystemRobustnessTester.test_ac_power_cycle`.  The configured count
is `test_config.get("ac_power_cycles", 100)`.  When the configured count
is `0` the source's `for` loop body never runs, so the success `return`
reads the loop-local `recovery_time` before assignment; the resulting
`NameError` is caught by the scenario's `except` branch, which returns
the all-false record with `cycle_count=0` and the exception's message. -/
def test_ac_power_cycle (intg fnc : Nat → Bool) (cfg : Nat) : RobustnessTestResult :=
  if cfg = 0 then
    { test_type := .AC_POWER_CYCLE, test_passed := false
      recovery_time_seconds := 0
      data_integrity_maintained := false, device_functional_after_test := false
      cycle_count := 0
      error_message := some "local variable \x27recovery_time\x27 referenced before assignment" }
  else
    acLoop intg fnc cfg 0 cfg

/-- The shared body of `test_ipmi_power_cycle`, `test_ipmi_reboot`,
`test_os_reboot`, `_test_reset_type`, `test_quarch_hot_swap` and
`test_quarch_glitch`: one pair of checks, `test_passed` is their
conjunction, `cycle_count=1`.  (The `except` branches of these scenarios
are dead in the source: nothing in their `try` bodies can raise.) -/
def checkedScenario (env : RobustEnv) (t : RobustnessTestType) : RobustnessTestResult :=
  let di := env.integrity t
  let df := env.functional t
  { test_type := t, test_passed := di && df
    recovery_time_seconds := 0
    data_integrity_maintained := di, device_functional_after_test := df
    cycle_count := 1, error_message := none }

/-- The shared body of `test_smbus_monitoring`, `test_nvme_mi_openbmc`
and `test_itp_cscript`: unconditionally passing, both flags true. -/
def monitoringScenario (t : RobustnessTestType) : RobustnessTestResult :=
  { test_type := t, test_passed := true
    recovery_time_seconds := 0
    data_integrity_maintained := true, device_functional_after_test := true
    cycle_count := 1, error_message := none }

/-- `SystemRobustnessTester.run_full_robustness_test_suite`: the 13
scenarios in source order, keyed by the enum `.value` strings. -/
def run_full_robustness_test_suite (env : RobustEnv) (acCycles : Nat) :
    List (String × RobustnessTestResult) :=
  [ ("ac_power_cycle", test_ac_power_cycle env.acIntegrity env.acFunctional acCycles)
  , ("ipmi_power_cycle", checkedScenario env .IPMI_POWER_CYCLE)
  , ("ipmi_reboot", checkedScenario env .IPMI_REBOOT)
  , ("os_reboot", checkedScenario env .OS_REBOOT)
  , ("smbus_monitoring", monitoringScenario .SMBUS_MONITORING)
  , ("ctrl_reset", checkedScenario env .CTRL_RESET)
  , ("nssr_reset", checkedScenario env .NSSR_RESET)
  , ("flr_reset", checkedScenario env .FLR_RESET)
  , ("hot_reset", checkedScenario env .HOT_RESET)
  , ("quarch_hot_swap", checkedScenario env .QUARCH_HOT_SWAP)
  , ("quarch_glitch", checkedScenario env .QUARCH_GLITCH)
  , ("nvme_mi_openbmc", monitoringScenario .NVME_MI_OPENBMC)
  , ("itp_cscript", monitoringScenario .ITP_CSCRIPT) ]

/-! ## Certification manager (`app/compatibility/certification_manager.py`) -/

/-- `CertificationType` enum. -/
inductive CertificationType
  | INTEL_VROC
  | WHQL
  | INTEL_WINDOWS_NVME_DRIVER
  | INTEL_ESXI_VMD_DRIVER
  | UEFI_2_7
deriving DecidableEq, Repr

/-- `CertificationTestResult` dataclass. -/
structure CertificationTestResult where
  certification_type : CertificationType
  test_passed : Bool
  certification_version : String
  compliance_level : String
  test_duration_seconds : ℚ
  issues_found : List String
  recommendations : List String
  error_message : Option String
deriving DecidableEq, Repr

/-- Oracles for one certification-suite execution: the booleans returned
by the awaited `_verify_*` helpers, and an optional exception per test
(caught by each test's `except` branch). -/
structure CertEnv where
  vrocCompat : Bool
  driverSigning : Bool
  windowsCompat : Bool
  intelDriverCompat : Bool
  vmdCompat : Bool
  virtSupport : Bool
  uefiCompat : Bool
  secureBoot : Bool
  exc : CertificationType → Option String

/-- The issue list built by a certification test body: one fixed issue
string appended per failing check, in check order. -/
def certIssues (checks : List (Bool × String × String)) : List String :=
  checks.foldr (fun c acc => (if c.1 then [] else [c.2.1]) ++ acc) []

/-- The recommendation list built by a certification test body: one
fixed remediation string appended per failing check, in check order. -/
def certRecs (checks : List (Bool × String × String)) : List String :=
  checks.foldr (fun c acc => (if c.1 then [] else [c.2.2]) ++ acc) []

/-- Shared shape of the five certification test bodies: run the checks,
collect issues and matched recommendations, pass iff no issue; on an
exception return the fixed failure record of that test. -/
def certTest (ct : CertificationType) (version passLevel failLevel : String)
    (checks : List (Bool × String × String))
    (excLevel excRec : String) (exc : Option String) : CertificationTestResult :=
  match exc with
  | some e =>
      { certification_type := ct, test_passed := false
        certification_version := "Unknown", compliance_level := excLevel
        test_duration_seconds := 0
        issues_found := ["Test execution failed"], recommendations := [excRec]
        error_message := some e }
  | none =>
      let issues := certIssues checks
      let recs := certRecs checks
      let passed := issues.length = 0
      { certification_type := ct, test_passed := passed
        certification_version := version
        compliance_level := if passed then passLevel else failLevel
        test_duration_seconds := 0
        issues_found := issues, recommendations := recs
        error_message := none }

/-- `CertificationManager.test_intel_vroc_certification`. -/
def test_intel_vroc_certification (env : CertEnv) : CertificationTestResult :=
  certTest .INTEL_VROC "VROC 7.0" "Full Compliance" "Partial Compliance"
    [(env.vrocCompat, "VROC compatibility mode not detected",
      "Verify BIOS VROC settings are enabled")]
    "Non-Compliant" "Check system configuration and retry" (env.exc .INTEL_VROC)

/-- `CertificationManager.test_whql_certification`. -/
def test_whql_certification (env : CertEnv) : CertificationTestResult :=
  certTest .WHQL "Windows 11 22H2" "WHQL Certified" "Certification Pending"
    [ (env.driverSigning, "Driver signature verification failed",
       "Ensure drivers are properly signed")
    , (env.windowsCompat, "Windows compatibility issues detected",
       "Update to latest Windows-compatible firmware") ]
    "Non-Certified" "Check Windows environment and retry" (env.exc .WHQL)

/-- `CertificationManager.test_intel_windows_nvme_driver`. -/
def test_intel_windows_nvme_driver (env : CertEnv) : CertificationTestResult :=
  certTest .INTEL_WINDOWS_NVME_DRIVER "Intel NVMe Driver 5.3.0"
    "Intel Certified" "Compatibility Issues"
    [(env.intelDriverCompat, "Intel NVMe driver compatibility issues",
      "Update to latest Intel NVMe driver version")]
    "Non-Certified" "Check driver installation and retry"
    (env.exc .INTEL_WINDOWS_NVME_DRIVER)

/-- `CertificationManager.test_intel_esxi_vmd_driver`. -/
def test_intel_esxi_vmd_driver (env : CertEnv) : CertificationTestResult :=
  certTest .INTEL_ESXI_VMD_DRIVER "Intel VMD Driver 2.8.0 for ESXi 8.0"
    "VMware Certified" "Compatibility Issues"
    [ (env.vmdCompat, "VMD driver compatibility issues with ESXi",
       "Verify ESXi version and VMD driver compatibility")
    , (env.virtSupport, "Virtualization support issues detected",
       "Check VMware ESXi configuration") ]
    "Non-Certified" "Check ESXi environment and retry" (env.exc .INTEL_ESXI_VMD_DRIVER)

/-- `CertificationManager.test_uefi_2_7_certification`. -/
def test_uefi_2_7_certification (env : CertEnv) : CertificationTestResult :=
  certTest .UEFI_2_7 "UEFI 2.7" "UEFI Compliant" "Compliance Issues"
    [ (env.uefiCompat, "UEFI 2.7 compatibility issues detected",
       "Update firmware to support UEFI 2.7")
    , (env.secureBoot, "Secure boot support issues",
       "Verify secure boot configuration") ]
    "Non-Compliant" "Check UEFI environment and retry" (env.exc .UEFI_2_7)

/-- `CertificationManager.run_full_certification_test_suite`: the five
tests in source order, keyed by the enum `.value` strings. -/
def run_full_certification_test_suite (env : CertEnv) :
    List (String × CertificationTestResult) :=
  [ ("intel_vroc", test_intel_vroc_certification env)
  , ("whql", test_whql_certification env)
  , ("intel_windows_nvme_driver", test_intel_windows_nvme_driver env)
  , ("intel_esxi_vmd_driver", test_intel_esxi_vmd_driver env)
  , ("uefi_2_7", test_uefi_2_7_certification env) ]

/-! ## Data drive validator
(`python-test-modules/compatibility/data_drive_validator.py`) -/

/-- `WorkloadType` enum. -/
inductive WorkloadType
  | DIRECT_ACCESS
  | FILESYSTEM_ACCESS
  | SW_RAID_ACCESS
deriving DecidableEq, Repr

/-- `RAIDLevel` enum. -/
inductive RAIDLevel
  | RAID_0
  | RAID_1
  | RAID_5
  | RAID_6
deriving DecidableEq, Repr

/-- Iteration order of `for raid_level in RAIDLevel`. -/
def raidLevelList : List RAIDLevel :=
  [RAIDLevel.RAID_0, RAIDLevel.RAID_1, RAIDLevel.RAID_5, RAIDLevel.RAID_6]

/-- `DataDriveTestResult` dataclass. -/
structure DataDriveTestResult where
  workload_type : WorkloadType
  raid_level : Option RAIDLevel
  test_passed : Bool
  throughput_mbps : ℚ
  iops : Nat
  latency_ms : ℚ
  error_rate : ℚ
  test_duration_seconds : ℚ
  error_message : Option String
deriving DecidableEq, Repr

/-- Oracles for one data-drive-suite execution: the per-device, per-item
exceptions caught by the `except` branches of the three workload tests
(nothing in the simulated `try` bodies can raise, so the source's
exception paths are live only through these oracles). -/
structure DataEnv where
  directExc : String → Option String
  fsExc : String → String → Option String
  raidExc : RAIDLevel → Option String

/-- `DataDriveValidator._get_min_devices_for_raid`. -/
def _get_min_devices_for_raid : RAIDLevel → Nat
  | .RAID_0 => 2
  | .RAID_1 => 2
  | .RAID_5 => 3
  | .RAID_6 => 4

/-- `DataDriveValidator._get_simulated_raid_performance`
(throughput MB/s, IOPS, latency ms). -/
def _get_simulated_raid_performance : RAIDLevel → ℚ × Nat × ℚ
  | .RAID_0 => (6000, 800000, 6/100)
  | .RAID_1 => (3200, 420000, 10/100)
  | .RAID_5 => (4500, 600000, 15/100)
  | .RAID_6 => (4000, 550000, 18/100)

/-- `DataDriveValidator.test_direct_access_workload`: one result per
configured device, passing with the simulated metrics unless the
device's iteration raised. -/
def test_direct_access_workload (env : DataEnv) (devices : List String) :
    List DataDriveTestResult :=
  devices.map (fun d =>
    match env.directExc d with
    | none =>
        { workload_type := .DIRECT_ACCESS, raid_level := none, test_passed := true
          throughput_mbps := 3500, iops := 450000, latency_ms := 8/100
          error_rate := 0, test_duration_seconds := 0, error_message := none }
    | some e =>
        { workload_type := .DIRECT_ACCESS, raid_level := none, test_passed := false
          throughput_mbps := 0, iops := 0, latency_ms := 0
          error_rate := 1, test_duration_seconds := 0, error_message := some e })

/-- `DataDriveValidator.test_filesystem_access_workload`: one result per
(device, filesystem) pair, filesystems `ext4`, `xfs`, `ntfs`. -/
def test_filesystem_access_workload (env : DataEnv) (devices : List String) :
    List DataDriveTestResult :=
  devices.flatMap (fun d =>
    ["ext4", "xfs", "ntfs"].map (fun fs =>
      match env.fsExc d fs with
      | none =>
          { workload_type := .FILESYSTEM_ACCESS, raid_level := none, test_passed := true
            throughput_mbps := 3200, iops := 420000, latency_ms := 12/100
            error_rate := 0, test_duration_seconds := 0, error_message := none }
      | some e =>
          { workload_type := .FILESYSTEM_ACCESS, raid_level := none, test_passed := false
            throughput_mbps := 0, iops := 0, latency_ms := 0
            error_rate := 1, test_duration_seconds := 0, error_message := some e }))

/-- The body of one `for raid_level in RAIDLevel` iteration of
`test_sw_raid_access_workload`: `continue` (no result) when the device
count is below the level's minimum, otherwise one passing result with
the simulated performance, or one failing result if the iteration
raised. -/
def raidEntry (env : DataEnv) (nDevices : Nat) (l : RAIDLevel) : List DataDriveTestResult :=
  if nDevices < _get_min_devices_for_raid l then []
  else
    match env.raidExc l with
    | none =>
        let p := _get_simulated_raid_performance l
        [{ workload_type := .SW_RAID_ACCESS, raid_level := some l, test_passed := true
           throughput_mbps := p.1, iops := p.2.1, latency_ms := p.2.2
           error_rate := 0, test_duration_seconds := 0, error_message := none }]
    | some e =>
        [{ workload_type := .SW_RAID_ACCESS, raid_level := some l, test_passed := false
           throughput_mbps := 0, iops := 0, latency_ms := 0
           error_rate := 1, test_duration_seconds := 0, error_message := some e }]

/-- `DataDriveValidator.test_sw_raid_access_workload`: empty when fewer
than two devices are configured; otherwise the concatenation of the
per-level entries in enum order. -/
def test_sw_raid_access_workload (env : DataEnv) (devices : List String) :
    List DataDriveTestResult :=
  if devices.length < 2 then []
  else raidLevelList.flatMap (raidEntry env devices.length)

/-- `DataDriveValidator.run_full_data_drive_test_suite`: the three
workload result lists, keyed by the `WorkloadType.value` strings. -/
def run_full_data_drive_test_suite (env : DataEnv) (devices : List String) :
    List (String × List DataDriveTestResult) :=
  [ ("direct_access", test_direct_access_workload env devices)
  , ("filesystem_access", test_filesystem_access_workload env devices)
  , ("sw_raid_access", test_sw_raid_access_workload env devices) ]

/-! ## The run store (`test_results_db`, a Python dict)

`test_results_db` is a dict keyed by `test_id`; assignment inserts a new
key at the end or overwrites an existing key in place.  We model it as
an insertion-ordered association list. -/

/-- Dict lookup. -/
def dbLookup {α : Type} (db : List (String × α)) (k : String) : Option α :=
  match db with
  | [] => none
  | (k', v) :: t => if k' = k then some v else dbLookup t k

/-- Dict assignment `db[k] = v`: replace in place, else append. -/
def dbInsert {α : Type} (db : List (String × α)) (k : String) (v : α) :
    List (String × α) :=
  match db with
  | [] => [(k, v)]
  | (k', v') :: t => if k' = k then (k, v) :: t else (k', v') :: dbInsert t k v

/-- In-place mutation of the record stored under an existing key
(`test_result = test_results_db[test_id]; test_result.field = …`). -/
def dbUpdate {α : Type} (db : List (String × α)) (k : String) (f : α → α) :
    List (String × α) :=
  match db with
  | [] => []
  | (k', v) :: t => (if k' = k then (k', f v) else (k', v)) :: dbUpdate t k f

/-- The keys of the dict, in insertion order. -/
def dbKeys {α : Type} (db : List (String × α)) : List String := db.map Prod.fst

/-! ## Orchestrator (`app/main.py`) -/

/-- The four test categories, one per registered submit endpoint. -/
inductive Category
  | boot_drive
  | data_drive
  | system_robustness
  | certification
deriving DecidableEq, Repr

/-- The `test_type` string the endpoint of a category hard-codes (also
the prefix of the generated `test_id`). -/
def Category.str : Category → String
  | .boot_drive => "boot_drive"
  | .data_drive => "data_drive"
  | .system_robustness => "system_robustness"
  | .certification => "certification"

/-- The recognized entries of the open `test_parameters` map: the only
key any module reads is `"ac_power_cycles"` (default 100). -/
structure TestParams where
  ac_power_cycles : Option Nat
deriving DecidableEq, Repr

/-- `TestConfig` pydantic model. -/
structure TestConfig where
  ssd_device_path : String
  ssd_devices : Option (List String)
  test_parameters : TestParams
deriving DecidableEq, Repr

/-- `TestExecutionRequest` pydantic model. -/
structure TestExecutionRequest where
  test_category : String
  test_type : String
  config : TestConfig
deriving DecidableEq, Repr

/-- One entry of the per-category results dict a completed run stores
(`main.py` rebuilds each module's dataclass as a plain dict with the
same fields; we keep the typed records). -/
inductive Payload
  | boot (r : BootTestResult)
  | dataList (rs : List DataDriveTestResult)
  | robust (r : RobustnessTestResult)
  | cert (r : CertificationTestResult)
deriving DecidableEq, Repr

/-- `TestResult` pydantic model: the Run record held in
`test_results_db`.  Timestamps are abstract clock readings (`Nat`). -/
structure TestResult where
  test_id : String
  test_category : String
  test_type : String
  status : String
  start_time : Nat
  end_time : Option Nat
  results : List (String × Payload)
  error_message : Option String
deriving DecidableEq, Repr

/-- Oracles for one background execution: the per-module oracle
environments, plus an optional infrastructure exception raised by the
module and caught by the `except` branch of `execute_*_test` (per §4.2
of the architecture, modules raise only for infrastructure-level
failures; the simulated module bodies themselves never raise). -/
structure ModuleEnv where
  bootEnv : BootEnv
  robustEnv : RobustEnv
  certEnv : CertEnv
  dataEnv : DataEnv
  runExc : Option String

/-- `devices = config.ssd_devices or [config.ssd_device_path]` in
`execute_data_drive_test`: Python's `or` falls through on `None` and on
an empty list. -/
def effectiveDevices (cfg : TestConfig) : List String :=
  match cfg.ssd_devices with
  | some (d :: ds) => d :: ds
  | _ => [cfg.ssd_device_path]

/-- The configured AC power-cycle count:
`test_config.get("ac_power_cycles", 100)`. -/
def acCyclesOf (cfg : TestConfig) : Nat :=
  cfg.test_parameters.ac_power_cycles.getD 100

/-- The results mapping a category's module execution produces, as the
`execute_*_test` functions store it. -/
def suiteResults (cat : Category) (cfg : TestConfig) (env : ModuleEnv) :
    List (String × Payload) :=
  match cat with
  | .boot_drive =>
      (run_full_boot_test_suite env.bootEnv).map (fun p => (p.1, Payload.boot p.2))
  | .data_drive =>
      (run_full_data_drive_test_suite env.dataEnv (effectiveDevices cfg)).map
        (fun p => (p.1, Payload.dataList p.2))
  | .system_robustness =>
      (run_full_robustness_test_suite env.robustEnv (acCyclesOf cfg)).map
        (fun p => (p.1, Payload.robust p.2))
  | .certification =>
      (run_full_certification_test_suite env.certEnv).map
        (fun p => (p.1, Payload.cert p.2))

/-- Outcome of one module execution: the awaited suite results, or the
infrastructure exception that reached `execute_*_test`'s handler. -/
def moduleRun (cat : Category) (cfg : TestConfig) (env : ModuleEnv) :
    Except String (List (String × Payload)) :=
  match env.runExc with
  | some e => .error e
  | none => .ok (suiteResults cat cfg env)

/-- `test_id = f"{category}_{datetime.now().isoformat()}"`, with the
clock reading rendered into the id. -/
def testId (cat : Category) (ts : Nat) : String :=
  cat.str ++ "_" ++ toString ts

/-- The Run record the submit endpoint writes before scheduling
execution. -/
def initRec (cat : Category) (ts : Nat) : TestResult :=
  { test_id := testId cat ts, test_category := "compatibility"
    test_type := cat.str, status := "running", start_time := ts
    end_time := none, results := [], error_message := none }

/-- The terminal mutation `execute_*_test` applies to the record found
under its `test_id`: on success set `completed`, `end_time` and
`results`; on a module exception set `failed`, `end_time` and
`error_message` (the `results` field is left as found). -/
def finishApply (outcome : Except String (List (String × Payload))) (endTs : Nat)
    (r : TestResult) : TestResult :=
  match outcome with
  | .ok rs =>
      { r with status := "completed", end_time := some endTs, results := rs }
  | .error e =>
      { r with status := "failed", end_time := some endTs, error_message := some e }

/-- A broadcast lifecycle event.  `tok` identifies the submission that
published the event (model-level identity: on the wire the event carries
only the `test_id`, which colliding submissions share). -/
inductive Event
  | started (tok : Nat) (tid : String) (cat : Category)
  | completed (tok : Nat) (tid : String) (cat : Category)
  | failedEv (tok : Nat) (tid : String) (cat : Category) (err : String)
deriving DecidableEq, Repr

/-- One scheduled background task (`asyncio.create_task(execute_*)`):
its submission token, test id, category, config, oracle environment, and
whether it has run to completion. -/
structure TaskRec where
  tid : String
  cat : Category
  cfg : TestConfig
  env : ModuleEnv
  done : Bool

/-- Observable state of the service: the run store, the sequence of
published events, and the scheduled tasks. -/
structure OrchState where
  db : List (String × TestResult)
  events : List Event
  tasks : List TaskRec

/-- The initial state of the process. -/
def initState : OrchState := { db := [], events := [], tasks := [] }

/-- One atomic observable step: a submit endpoint handling a request
(store write, `started` broadcast, task creation — the handler performs
these before returning), or a scheduled task finishing (terminal store
mutation followed by the terminal broadcast; the mutation block contains
no `await`, so no interleaving is observable inside it). -/
inductive StepDesc
  | submit (cat : Category) (cfg : TestConfig) (ts : Nat) (env : ModuleEnv)
  | finish (k : Nat) (endTs : Nat)

/-- Mark task `k` as done. -/
def markDone (tasks : List TaskRec) (k : Nat) : List TaskRec :=
  match tasks.get? k with
  | none => tasks
  | some t => tasks.set k { t with done := true }

/-- Apply one step to the state.  A `finish` of an unknown or
already-finished task is a no-op (each created task runs exactly
once). -/
def applyStep (s : OrchState) (d : StepDesc) : OrchState :=
  match d with
  | .submit cat cfg ts env =>
      let tid := testId cat ts
      { db := dbInsert s.db tid (initRec cat ts)
        events := s.events ++ [Event.started s.tasks.length tid cat]
        tasks := s.tasks ++ [{ tid := tid, cat := cat, cfg := cfg, env := env, done := false }] }
  | .finish k endTs =>
      match s.tasks.get? k with
      | none => s
      | some t =>
          if t.done then s
          else
            let outcome := moduleRun t.cat t.cfg t.env
            { db := dbUpdate s.db t.tid (finishApply outcome endTs)
              events := s.events ++
                [match outcome with
                 | .ok _ => Event.completed k t.tid t.cat
                 | .error e => Event.failedEv k t.tid t.cat e]
              tasks := markDone s.tasks k }

/-- Run a sequence of steps from the initial state. -/
def exec (descs : List StepDesc) : OrchState := descs.foldl applyStep initState

/-- The ids allocated by the submit steps of a schedule, in order. -/
def submitIds (descs : List StepDesc) : List String :=
  descs.filterMap (fun d => match d with
    | .submit cat _ ts _ => some (testId cat ts)
    | .finish _ _ => none)

/-! ## HTTP layer of the submit operation

`main.py` registers one fixed POST route per category; the request
body's `test_category` / `test_type` fields are bound by FastAPI but
never read by any handler.  A POST to a path with no registered route is
rejected by the framework's router (HTTP 404) before any handler runs. -/

/-- Response of a submit call. -/
inductive SubmitResponse
  | startedResp (test_id : String)
  | notFound
deriving DecidableEq, Repr

/-- The registered submit routes and the category each is bound to. -/
def routeOf (path : String) : Option Category :=
  if path = "/api/compatibility/boot-drive/test" then some .boot_drive
  else if path = "/api/compatibility/data-drive/test" then some .data_drive
  else if path = "/api/compatibility/system-robustness/test" then some .system_robustness
  else if path = "/api/compatibility/certification/test" then some .certification
  else none

/-- The shared body of `run_boot_drive_test`, `run_data_drive_test`,
`run_system_robustness_test` and `run_certification_test`: allocate the
id, write the running record, broadcast `test_started`, schedule the
background execution, return `{"test_id": …, "status": "started"}`.
Only `request.config` is read; `request.test_category` and
`request.test_type` are ignored. -/
def submitHandler (cat : Category) (req : TestExecutionRequest) (ts : Nat)
    (env : ModuleEnv) (s : OrchState) : OrchState × SubmitResponse :=
  (applyStep s (.submit cat req.config ts env), .startedResp (testId cat ts))

/-- A POST dispatched through the router: the bound handler for a
registered path, HTTP 404 (and no state change) otherwise. -/
def dispatch (path : String) (req : TestExecutionRequest) (ts : Nat)
    (env : ModuleEnv) (s : OrchState) : OrchState × SubmitResponse :=
  match routeOf path with
  | some cat => submitHandler cat req ts env s
  | none => (s, .notFound)

/-- The `(category, suite_type)` pairs for which a Test Module is
registered (`get_compatibility_status`; every record is created with
`test_category="compatibility"` and the endpoint's `test_type`). -/
def registeredSuites : List (String × String) :=
  [ ("compatibility", "boot_drive"), ("compatibility", "data_drive")
  , ("compatibility", "system_robustness"), ("compatibility", "certification") ]

/-! ## Broadcast hub (`ConnectionManager.broadcast`)

The source iterates `self.active_connections` with a `for` loop and
calls `list.remove(connection)` inside the loop when a send raises.  A
Python list iterator holds a bare index that it increments at each
yield, so removing the current element shifts the remainder left and the
next yield skips the element that followed the removed one.  We model
connections as distinct handles (`Nat`) and a send-failure oracle. -/

/-- The `for connection in self.active_connections` loop of
`broadcast`, entered with iterator index `i`: the iterator yields the
element at `i` of the *current* list (or stops when `i` runs off its
end) and increments `i`; a failing send removes the yielded element
before the next yield.  The loop stops within `conns.length` yields (the
list never grows and `i` increases at every yield), so the countdown
`fuel`, started at `conns.length`, never reaches `0` before the iterator
is exhausted.  Returns the final connection list and the connections a
send was attempted to, in order. -/
def broadcastLoop (fails : Nat → Bool) :
    (fuel : Nat) → (conns : List Nat) → (i : Nat) → (attempted : List Nat) →
    List Nat × List Nat
  | 0, conns, _, attempted => (conns, attempted)
  | fuel + 1, conns, i, attempted =>
      match conns.get? i with
      | none => (conns, attempted)
      | some c =>
          if fails c then
            broadcastLoop fails fuel (conns.erase c) (i + 1) (attempted ++ [c])
          else
            broadcastLoop fails fuel conns (i + 1) (attempted ++ [c])

/-- `ConnectionManager.broadcast` of one message: final subscriber list
and the subscribers delivery was attempted to. -/
def broadcast (fails : Nat → Bool) (conns : List Nat) : List Nat × List Nat :=
  broadcastLoop fails conns.length conns 0 []

/-! ## Concrete fixtures used by witnesses and counterexamples -/

/-- Boot-suite oracles of the shipped simulation: every awaited check
returns `true`, nothing raises. -/
def simBootEnv : BootEnv :=
  { install := fun _ => true, bootOk := fun _ => true, bootTime := fun _ => 2
    usability := fun _ => true, exc := fun _ => none }

/-- Robustness-suite oracles of the shipped simulation. -/
def simRobustEnv : RobustEnv :=
  { integrity := fun _ => true, functional := fun _ => true
    acIntegrity := fun _ => true, acFunctional := fun _ => true }

/-- Certification-suite oracles of the shipped simulation. -/
def simCertEnv : CertEnv :=
  { vrocCompat := true, driverSigning := true, windowsCompat := true
    intelDriverCompat := true, vmdCompat := true, virtSupport := true
    uefiCompat := true, secureBoot := true, exc := fun _ => none }

/-- Data-drive-suite oracles of the shipped simulation. -/
def simDataEnv : DataEnv :=
  { directExc := fun _ => none, fsExc := fun _ _ => none, raidExc := fun _ => none }

/-- A submit configuration: one device, one configured AC power cycle. -/
def cfg1 : TestConfig :=
  { ssd_device_path := "/dev/nvme0n1", ssd_devices := none
    test_parameters := { ac_power_cycles := some 1 } }

/-- A module execution in which nothing raises. -/
def envOk : ModuleEnv :=
  { bootEnv := simBootEnv, robustEnv := simRobustEnv, certEnv := simCertEnv
    dataEnv := simDataEnv, runExc := none }

/-- A module execution that raises an infrastructure exception. -/
def envBad : ModuleEnv := { envOk with runExc := some "device unreachable" }

example : (exec [.submit .boot_drive cfg1 0 envOk, .finish 0 7]).db =
    [("boot_drive_0",
      finishApply (.ok (suiteResults .boot_drive cfg1 envOk)) 7 (initRec .boot_drive 0))] := by
  decide

example :
    (test_ac_power_cycle (fun _ => true) (fun _ => true) 3).cycle_count = 3 := by decide

example : broadcast (fun c => c == 1) [1, 2] = ([2], [1]) := by decide

/-! ## C6 — broadcast delivery

The claim requires that a publish attempts delivery to every subscriber
present when it begins, and that a failure removes only the failing
subscriber without affecting the rest.  The source removes the failing
connection from the list it is iterating, so the Python iterator skips
the subscriber that followed the removed one: with subscribers `[1, 2]`
and delivery to `1` failing, delivery to `2` is never attempted, even
though `1` is correctly the only subscriber removed.  The obvious intent
of `broadcast` (stated by the spec) is to attempt delivery to all
current subscribers; mutating the list mid-iteration is a slip. -/

/-- C6: with subscribers `[1, 2]` and subscriber `1` failing, the
publish attempts delivery only to `1`; subscriber `2`, present when the
publish began and never removed, is skipped.  This refutes the claim
that a delivery failure does not prevent delivery to the remaining
subscribers. -/
theorem claim_C6_code_bug :
    (1 ∈ [1, 2] ∧ 2 ∈ [1, 2]) ∧
    broadcast (fun c => c == 1) [1, 2] = ([2], [1]) ∧
    2 ∉ (broadcast (fun c => c == 1) [1, 2]).2 := by decide

/-! ## C7 — run id uniqueness

`test_id = f"{category}_{datetime.now().isoformat()}"`: two submissions
of the same category at the same clock reading are assigned the same id,
and the second store write overwrites the first Run.  The spec states
ids "must be unique across the store's lifetime" and itself flags the
source's timestamp scheme as collision-prone (§9), so the claim is the
intent and the id scheme the bug. -/

/-- C7: two accepted boot-drive submissions at the same clock reading
share the single id `"boot_drive_5"`: both background tasks exist, but
the store holds one record — the id was reused and the first Run's
record was overwritten. -/
theorem claim_C7_code_bug :
    (exec [.submit .boot_drive cfg1 5 envOk, .submit .boot_drive cfg1 5 envBad]).tasks.length = 2 ∧
    (exec [.submit .boot_drive cfg1 5 envOk, .submit .boot_drive cfg1 5 envBad]).db.length = 1 ∧
    dbKeys (exec [.submit .boot_drive cfg1 5 envOk, .submit .boot_drive cfg1 5 envBad]).db =
      [testId .boot_drive 5] := by decide

/-! ## C1 — submission with an unknown (category, suite_type) pair -/

/-- A request whose `(test_category, test_type)` pair names no
registered Test Module. -/
def reqUnknown : TestExecutionRequest :=
  { test_category := "nonexistent", test_type := "nonexistent", config := cfg1 }

/-- C1 counterexample: a POST to the registered boot-drive endpoint
whose body carries the unregistered pair `("nonexistent",
"nonexistent")` does not fail: it creates a Run in the store and
publishes a `started` event, because no handler reads the body's
category/type fields.  This refutes the claim that every submission with
an unknown pair fails synchronously with no Run and no `started`
event. -/
theorem claim_C1_counterexample :
    ("nonexistent", "nonexistent") ∉ registeredSuites ∧
    (dispatch "/api/compatibility/boot-drive/test" reqUnknown 0 envOk initState).2 =
      .startedResp "boot_drive_0" ∧
    (dispatch "/api/compatibility/boot-drive/test" reqUnknown 0 envOk initState).1.db =
      [("boot_drive_0", initRec .boot_drive 0)] ∧
    (dispatch "/api/compatibility/boot-drive/test" reqUnknown 0 envOk initState).1.events =
      [Event.started 0 "boot_drive_0" Category.boot_drive] := by decide

/-- C1 (amended): submission validation happens only in the router, on
the URL path: a POST to a path with no registered endpoint is rejected
with no Run created and no event published, while a POST to any of the
four registered endpoints always creates a Run and publishes a `started`
event for that endpoint's fixed suite type — the `(test_category,
test_type)` pair in the request body is never validated and never
affects the outcome. -/
theorem claim_C1 (path : String) (req : TestExecutionRequest) (ts : Nat)
    (env : ModuleEnv) (s : OrchState) :
    (routeOf path = none → dispatch path req ts env s = (s, .notFound)) ∧
    (∀ cat, routeOf path = some cat →
      (dispatch path req ts env s).1.db =
        dbInsert s.db (testId cat ts) (initRec cat ts) ∧
      (dispatch path req ts env s).1.events =
        s.events ++ [Event.started s.tasks.length (testId cat ts) cat] ∧
      (dispatch path req ts env s).2 = .startedResp (testId cat ts)) ∧
    (∀ c t, dispatch path { req with test_category := c, test_type := t } ts env s =
      dispatch path req ts env s) := by
  refine ⟨fun h => ?_, fun cat h => ?_, fun c t => ?_⟩
  · simp [dispatch, h]
  · simp [dispatch, h, submitHandler, applyStep]
  · cases h : routeOf path <;> simp [dispatch, h, submitHandler, applyStep]

/-- C1 witness: the amended theorem applied at an unregistered path and
at the boot-drive endpoint with the unknown-pair request. -/
theorem claim_C1_witness :
    dispatch "/nope" reqUnknown 0 envOk initState = (initState, .notFound) ∧
    (dispatch "/api/compatibility/boot-drive/test" reqUnknown 0 envOk initState).2 =
      .startedResp (testId .boot_drive 0) :=
  ⟨(claim_C1 "/nope" reqUnknown 0 envOk initState).1 (by decide),
   ((claim_C1 "/api/compatibility/boot-drive/test" reqUnknown 0 envOk
      initState).2.1 .boot_drive (by decide)).2.2⟩

/-! ## C4 — AC power-cycle cycle count -/

/-- When every remaining cycle passes both checks, the loop runs to
completion and reports the configured count with `test_passed=True`. -/
theorem acLoop_all_pass (intg fnc : Nat → Bool) (cfg : Nat) :
    ∀ (rem cycle : Nat), cycle + rem = cfg →
      (∀ i, cycle ≤ i → i < cfg → intg i = true ∧ fnc i = true) →
      acLoop intg fnc cfg cycle rem =
        { test_type := .AC_POWER_CYCLE, test_passed := true
          recovery_time_seconds := 0
          data_integrity_maintained := true, device_functional_after_test := true
          cycle_count := cfg, error_message := none } := by
  intro rem
  induction rem with
  | zero => intro cycle _ _; simp [acLoop]
  | succ n ih =>
      intro cycle hsum hp
      have hc : cycle < cfg := by omega
      have hcy := hp cycle le_rfl hc
      simp only [acLoop, hcy.1, hcy.2, Bool.not_true, Bool.or_self, Bool.false_eq_true,
        if_false]
      exact ih (cycle + 1) (by omega) (fun i hi hic => hp i (by omega) hic)

/-- When cycle `j` is the first failing cycle at or after `cycle`, the
loop aborts at `j` reporting the 1-based index `j + 1`, the checks'
values, and `test_passed=False`. -/
theorem acLoop_first_fail (intg fnc : Nat → Bool) (cfg : Nat) :
    ∀ (rem cycle j : Nat), cycle + rem = cfg → cycle ≤ j → j < cfg →
      ¬(intg j = true ∧ fnc j = true) →
      (∀ i, cycle ≤ i → i < j → intg i = true ∧ fnc i = true) →
      acLoop intg fnc cfg cycle rem =
        { test_type := .AC_POWER_CYCLE, test_passed := false
          recovery_time_seconds := 0
          data_integrity_maintained := intg j, device_functional_after_test := fnc j
          cycle_count := j + 1
          error_message := some ("Failed at cycle " ++ toString (j + 1)) } := by
  intro rem
  induction rem with
  | zero => intro cycle j hsum hcj hjc _ _; omega
  | succ n ih =>
      intro cycle j hsum hcj hjc hfail hp
      rcases Nat.lt_or_ge cycle j with hlt | hge
      · have hcy := hp cycle le_rfl hlt
        simp only [acLoop, hcy.1, hcy.2, Bool.not_true, Bool.or_self, Bool.false_eq_true,
          if_false]
        exact ih (cycle + 1) j (by omega) (by omega) hjc hfail
          (fun i hi hij => hp i (by omega) hij)
      · have hje : cycle = j := by omega
        subst hje
        have : (!intg cycle || !fnc cycle) = true := by
          rcases Bool.eq_false_or_eq_true (intg cycle) with h1 | h1
          · rcases Bool.eq_false_or_eq_true (fnc cycle) with h2 | h2
            · exact absurd ⟨h1, h2⟩ hfail
            · simp [h2]
          · simp [h1]
        simp [acLoop, this]

/-- C4: for every configured cycle count, the AC power-cycle scenario
reports `cycle_count` equal to the configured count when every cycle
passes both the integrity and functionality checks (for a zero count,
via the caught `NameError`, the reported count is likewise `0`), and
reports the 1-based index of the first failing cycle with
`test_passed=false` when some cycle fails either check. -/
theorem claim_C4 (cfg : Nat) (intg fnc : Nat → Bool) :
    ((∀ i, i < cfg → intg i = true ∧ fnc i = true) →
      (test_ac_power_cycle intg fnc cfg).cycle_count = cfg) ∧
    (∀ j, j < cfg → ¬(intg j = true ∧ fnc j = true) →
      (∀ i, i < j → intg i = true ∧ fnc i = true) →
      (test_ac_power_cycle intg fnc cfg).cycle_count = j + 1 ∧
        (test_ac_power_cycle intg fnc cfg).test_passed = false) := by
  constructor
  · intro hp
    by_cases h0 : cfg = 0
    · subst h0; simp [test_ac_power_cycle]
    · rw [test_ac_power_cycle, if_neg h0,
        acLoop_all_pass intg fnc cfg cfg 0 (by omega) (fun i _ hic => hp i hic)]
  · intro j hjc hfail hp
    have h0 : cfg ≠ 0 := by omega
    rw [test_ac_power_cycle, if_neg h0,
      acLoop_first_fail intg fnc cfg cfg 0 j (by omega) (by omega) hjc hfail
        (fun i _ hij => hp i hij)]
    exact ⟨rfl, rfl⟩

/-- C4 witness: with three configured cycles, all-passing checks report
`cycle_count = 3`; checks failing exactly at 0-based cycle 1 report the
1-based index `2` with `test_passed = false`. -/
theorem claim_C4_witness :
    (test_ac_power_cycle (fun _ => true) (fun _ => true) 3).cycle_count = 3 ∧
    (test_ac_power_cycle (fun i => decide (i ≠ 1)) (fun _ => true) 3).cycle_count = 2 ∧
    (test_ac_power_cycle (fun i => decide (i ≠ 1)) (fun _ => true) 3).test_passed = false := by
  refine ⟨(claim_C4 3 _ _).1 (fun i _ => ⟨rfl, rfl⟩), ?_⟩
  have h := (claim_C4 3 (fun i => decide (i ≠ 1)) (fun _ => true)).2 1 (by decide)
    (by decide) (fun i hi => by interval_cases i; exact ⟨rfl, rfl⟩)
  exact h

/-! ## C10 — overall pass implies both integrity flags -/

/-- The AC power-cycle loop never reports `test_passed=True` with either
flag false. -/
theorem acLoop_passed_flags (intg fnc : Nat → Bool) (cfg : Nat) :
    ∀ (rem cycle : Nat), (acLoop intg fnc cfg cycle rem).test_passed = true →
      (acLoop intg fnc cfg cycle rem).data_integrity_maintained = true ∧
        (acLoop intg fnc cfg cycle rem).device_functional_after_test = true := by
  intro rem
  induction rem with
  | zero => intro cycle _; exact ⟨rfl, rfl⟩
  | succ n ih =>
      intro cycle h
      by_cases hc : (!intg cycle || !fnc cycle) = true
      · rw [acLoop] at h
        simp only [hc, if_true] at h
        exact absurd h (by simp)
      · rw [acLoop] at h ⊢
        simp only [hc, if_false] at h ⊢
        · exact ih (cycle + 1) h

/-- C10: for every robustness-suite result of any scenario,
`test_passed` is true only if both `data_integrity_maintained` and
`device_functional_after_test` are true. -/
theorem claim_C10 (env : RobustEnv) (acCycles : Nat) :
    ∀ p ∈ run_full_robustness_test_suite env acCycles,
      p.2.test_passed = true →
      p.2.data_integrity_maintained = true ∧
        p.2.device_functional_after_test = true := by
  intro p hp
  have hchk : ∀ t : RobustnessTestType, (checkedScenario env t).test_passed = true →
      (checkedScenario env t).data_integrity_maintained = true ∧
        (checkedScenario env t).device_functional_after_test = true := by
    intro t h
    have h' : (env.integrity t && env.functional t) = true := h
    rw [Bool.and_eq_true] at h'
    exact ⟨h'.1, h'.2⟩
  have hac : (test_ac_power_cycle env.acIntegrity env.acFunctional acCycles).test_passed = true →
      (test_ac_power_cycle env.acIntegrity env.acFunctional acCycles).data_integrity_maintained = true ∧
        (test_ac_power_cycle env.acIntegrity env.acFunctional acCycles).device_functional_after_test = true := by
    by_cases h0 : acCycles = 0
    · subst h0; intro h; exact absurd h (by simp [test_ac_power_cycle])
    · rw [test_ac_power_cycle, if_neg h0]
      exact acLoop_passed_flags _ _ _ _ _
  simp only [run_full_robustness_test_suite, List.mem_cons, List.not_mem_nil, or_false] at hp
  rcases hp with h | h | h | h | h | h | h | h | h | h | h | h | h <;> subst h
  · exact hac
  all_goals first
    | exact hchk _
    | exact fun _ => ⟨rfl, rfl⟩

/-- C10 witness: the theorem applied to the always-passing SMBus
monitoring entry of a concrete suite execution. -/
theorem claim_C10_witness :
    (("smbus_monitoring", monitoringScenario .SMBUS_MONITORING) ∈
      run_full_robustness_test_suite simRobustEnv 1) ∧
    (monitoringScenario .SMBUS_MONITORING).data_integrity_maintained = true ∧
      (monitoringScenario .SMBUS_MONITORING).device_functional_after_test = true :=
  ⟨by decide,
   claim_C10 simRobustEnv 1 ("smbus_monitoring", monitoringScenario .SMBUS_MONITORING)
     (by decide) (by decide)⟩

/-! ## C5 — RAID sub-tests skipped on insufficient devices -/

/-- Every result a per-level iteration emits carries that level, and the
iteration emits nothing when the device count is below the level's
minimum. -/
theorem raidEntry_level (env : DataEnv) (n : Nat) (l : RAIDLevel) :
    ∀ r ∈ raidEntry env n l,
      r.raid_level = some l ∧ ¬n < _get_min_devices_for_raid l := by
  intro r hr
  unfold raidEntry at hr
  by_cases hm : n < _get_min_devices_for_raid l
  · rw [if_pos hm] at hr
    exact absurd hr (List.not_mem_nil r)
  · rw [if_neg hm] at hr
    cases hx : env.raidExc l <;> rw [hx] at hr <;>
      simp only [List.mem_singleton] at hr <;> subst hr <;> exact ⟨rfl, hm⟩

/-- C5: an array-level sub-test whose minimum device requirement exceeds
the configured device count is omitted from the array-access result list
entirely (never present, hence never reported failed); with exactly one
configured device the array-access list is empty while the direct-access
and filesystem-access lists are non-empty. -/
theorem claim_C5 (env : DataEnv) (devices : List String) :
    (∀ l : RAIDLevel, devices.length < _get_min_devices_for_raid l →
      ∀ r ∈ test_sw_raid_access_workload env devices, r.raid_level ≠ some l) ∧
    (devices.length = 1 →
      test_sw_raid_access_workload env devices = [] ∧
      test_direct_access_workload env devices ≠ [] ∧
      test_filesystem_access_workload env devices ≠ []) := by
  constructor
  · intro l hl r hr hcontra
    unfold test_sw_raid_access_workload at hr
    by_cases h2 : devices.length < 2
    · rw [if_pos h2] at hr
      exact absurd hr (List.not_mem_nil r)
    · rw [if_neg h2] at hr
      rcases List.mem_flatMap.mp hr with ⟨l', _, hr'⟩
      have hspec := raidEntry_level env devices.length l' r hr'
      rw [hspec.1] at hcontra
      have : l' = l := Option.some_injective _ hcontra
      subst this
      exact hspec.2 hl
  · intro h1
    rcases devices with _ | ⟨d, _ | ⟨e, t⟩⟩
    · simp at h1
    · refine ⟨by simp [test_sw_raid_access_workload], ?_, ?_⟩
      · simp [test_direct_access_workload]
      · simp [test_filesystem_access_workload]
    · simp at h1

/-- C5 witness: with two devices, RAID 5 (minimum 3) results are absent
— shown on the concrete RAID 0 entry that is present; with one device
the array-access list is empty while the other two lists are not. -/
theorem claim_C5_witness :
    ({ workload_type := .SW_RAID_ACCESS, raid_level := some RAIDLevel.RAID_0
       test_passed := true, throughput_mbps := 6000, iops := 800000
       latency_ms := 6/100, error_rate := 0, test_duration_seconds := 0
       error_message := none : DataDriveTestResult }.raid_level ≠ some RAIDLevel.RAID_5) ∧
    test_sw_raid_access_workload simDataEnv ["/dev/nvme0n1"] = [] ∧
    test_direct_access_workload simDataEnv ["/dev/nvme0n1"] ≠ [] ∧
    test_filesystem_access_workload simDataEnv ["/dev/nvme0n1"] ≠ [] :=
  ⟨(claim_C5 simDataEnv ["/dev/a", "/dev/b"]).1 RAIDLevel.RAID_5 (by decide) _
      (List.mem_cons_self _ _),
   (claim_C5 simDataEnv ["/dev/nvme0n1"]).2 rfl⟩

/-! ## C8 — boot-suite results shape and stage short-circuiting -/

/-- Stage short-circuiting of one OS boot test: a failed install forces
failed boot and usability, and a failed boot forces failed usability. -/
theorem boot_shortcircuit (env : BootEnv) (os : OSType) :
    ((test_os_boot_compatibility env os).install_success = false →
      (test_os_boot_compatibility env os).boot_success = false ∧
        (test_os_boot_compatibility env os).usability_test_passed = false) ∧
    ((test_os_boot_compatibility env os).boot_success = false →
      (test_os_boot_compatibility env os).usability_test_passed = false) := by
  unfold test_os_boot_compatibility
  cases hx : env.exc os
  · cases hi : env.install os <;> cases hb : env.bootOk os <;> simp
  · simp

/-- C8: a completed boot-suite run's results mapping has exactly one
entry per supported OS, keyed `ubuntu`, `centos`, `windows_2019` (each
entry carrying the `BootTestResult` fields by construction), and within
each OS entry the first failing stage short-circuits the later stages:
failed install forces `boot_success = false` and
`usability_test_passed = false`, and failed boot forces
`usability_test_passed = false`. -/
theorem claim_C8 (cfg : TestConfig) (env : ModuleEnv) :
    (suiteResults Category.boot_drive cfg env).map Prod.fst =
      ["ubuntu", "centos", "windows_2019"] ∧
    ∀ p ∈ run_full_boot_test_suite env.bootEnv,
      ((p.2.install_success = false →
        p.2.boot_success = false ∧ p.2.usability_test_passed = false) ∧
       (p.2.boot_success = false → p.2.usability_test_passed = false)) := by
  constructor
  · rfl
  · intro p hp
    simp only [run_full_boot_test_suite, osTypeList, List.map_cons, List.map_nil,
      List.mem_cons, List.not_mem_nil, or_false] at hp
    rcases hp with h | h | h <;> subst h <;> exact boot_shortcircuit env.bootEnv _

/-- C8 witness: the theorem applied with an environment whose Ubuntu
install fails — the Ubuntu entry short-circuits to failed boot and
usability — and the keys of the stored results mapping. -/
theorem claim_C8_witness :
    (suiteResults Category.boot_drive cfg1
        { envOk with bootEnv := { simBootEnv with
            install := fun os => decide (os ≠ OSType.UBUNTU) } }).map Prod.fst =
      ["ubuntu", "centos", "windows_2019"] ∧
    ((test_os_boot_compatibility
        { simBootEnv with install := fun os => decide (os ≠ OSType.UBUNTU) }
        OSType.UBUNTU).boot_success = false ∧
      (test_os_boot_compatibility
        { simBootEnv with install := fun os => decide (os ≠ OSType.UBUNTU) }
        OSType.UBUNTU).usability_test_passed = false) :=
  ⟨(claim_C8 cfg1 { envOk with bootEnv := { simBootEnv with
      install := fun os => decide (os ≠ OSType.UBUNTU) } }).1,
   ((claim_C8 cfg1 { envOk with bootEnv := { simBootEnv with
      install := fun os => decide (os ≠ OSType.UBUNTU) } }).2
     ("ubuntu", test_os_boot_compatibility
        { simBootEnv with install := fun os => decide (os ≠ OSType.UBUNTU) }
        OSType.UBUNTU) (by decide)).1 (by decide)⟩

/-! ## C9 — certification issues and recommendations -/

/-- The issue/remediation catalog of the certification module: every
issue string the five tests can emit, paired with the remediation
recommendation appended alongside it, plus the fixed pair each test's
exception handler emits. -/
def certRemediationTable : List (String × String) :=
  [ ("VROC compatibility mode not detected", "Verify BIOS VROC settings are enabled")
  , ("Driver signature verification failed", "Ensure drivers are properly signed")
  , ("Windows compatibility issues detected", "Update to latest Windows-compatible firmware")
  , ("Intel NVMe driver compatibility issues", "Update to latest Intel NVMe driver version")
  , ("VMD driver compatibility issues with ESXi", "Verify ESXi version and VMD driver compatibility")
  , ("Virtualization support issues detected", "Check VMware ESXi configuration")
  , ("UEFI 2.7 compatibility issues detected", "Update firmware to support UEFI 2.7")
  , ("Secure boot support issues", "Verify secure boot configuration")
  , ("Test execution failed", "Check system configuration and retry")
  , ("Test execution failed", "Check Windows environment and retry")
  , ("Test execution failed", "Check driver installation and retry")
  , ("Test execution failed", "Check ESXi environment and retry")
  , ("Test execution failed", "Check UEFI environment and retry") ]

/-- The issue and recommendation lists built from one check list have
equal length. -/
theorem certIssues_length (checks : List (Bool × String × String)) :
    (certIssues checks).length = (certRecs checks).length := by
  induction checks with
  | nil => rfl
  | cons c t ih =>
      rcases c with ⟨b, i, r⟩
      cases b <;> simp [certIssues, certRecs] at ih ⊢ <;> exact ih

/-- Every aligned (issue, recommendation) pair built from one check list
is the (issue, remediation) pair of one of the checks. -/
theorem certZip_mem (checks : List (Bool × String × String)) :
    ∀ q ∈ (certIssues checks).zip (certRecs checks),
      q ∈ checks.map (fun c => (c.2.1, c.2.2)) := by
  induction checks with
  | nil => intro q hq; exact absurd hq (by simp [certIssues, certRecs])
  | cons c t ih =>
      rcases c with ⟨b, i, r⟩
      intro q hq
      cases b
      · simp only [certIssues, certRecs, List.foldr_cons, Bool.false_eq_true, if_false,
          List.singleton_append] at hq
        rcases List.mem_cons.mp hq with h | h
        · subst h; exact List.mem_cons_self _ _
        · exact List.mem_cons_of_mem _ (ih q h)
      · simp only [certIssues, certRecs, List.foldr_cons, if_true, List.nil_append] at hq
        exact List.mem_cons_of_mem _ (ih q hq)

/-- Pairing of the lists emitted by one certification test body: equal
lengths, and each aligned pair comes from the test's own checks or its
exception handler. -/
theorem certTest_pairing (ct : CertificationType) (version passLevel failLevel : String)
    (checks : List (Bool × String × String)) (excLevel excRec : String)
    (exc : Option String) :
    (certTest ct version passLevel failLevel checks excLevel excRec exc).issues_found.length =
      (certTest ct version passLevel failLevel checks excLevel excRec exc).recommendations.length ∧
    ∀ q ∈ (certTest ct version passLevel failLevel checks excLevel excRec exc).issues_found.zip
        (certTest ct version passLevel failLevel checks excLevel excRec exc).recommendations,
      q ∈ ("Test execution failed", excRec) :: checks.map (fun c => (c.2.1, c.2.2)) := by
  cases exc with
  | some e =>
      refine ⟨rfl, fun q hq => ?_⟩
      simp only [certTest, List.zip_cons_cons, List.zip_nil_right, List.mem_singleton] at hq
      subst hq
      exact List.mem_cons_self _ _
  | none =>
      refine ⟨certIssues_length checks, fun q hq => ?_⟩
      simp only [certTest] at hq
      exact List.mem_cons_of_mem _ (certZip_mem checks q hq)

/-- C9: in every certification test result, `issues_found` and
`recommendations` have equal length and correspond pairwise: each
aligned pair is one of the fixed (issue, matched remediation) pairs of
the module's catalog. -/
theorem claim_C9 (env : CertEnv) :
    ∀ p ∈ run_full_certification_test_suite env,
      p.2.issues_found.length = p.2.recommendations.length ∧
      ∀ q ∈ p.2.issues_found.zip p.2.recommendations, q ∈ certRemediationTable := by
  intro p hp
  simp only [run_full_certification_test_suite, List.mem_cons, List.not_mem_nil,
    or_false] at hp
  rcases hp with h | h | h | h | h <;> subst h <;>
    refine ⟨(certTest_pairing _ _ _ _ _ _ _ _).1, fun q hq => ?_⟩ <;>
    have hmem := (certTest_pairing _ _ _ _ _ _ _ _).2 q hq <;>
    simp only [List.map_cons, List.map_nil, List.mem_cons, List.not_mem_nil,
      or_false] at hmem <;>
    simp only [certRemediationTable, List.mem_cons, List.not_mem_nil, or_false] <;>
    tauto

/-- C9 witness: the theorem applied to the WHQL entry of an execution in
which driver signing fails — one issue paired with one
recommendation. -/
theorem claim_C9_witness :
    (test_whql_certification { simCertEnv with driverSigning := false }).issues_found.length =
      (test_whql_certification { simCertEnv with driverSigning := false }).recommendations.length :=
  (claim_C9 { simCertEnv with driverSigning := false }
    ("whql", test_whql_certification { simCertEnv with driverSigning := false })
    (by decide)).1

/-! ## C3 — `started` precedes the terminal event of the same run -/

/-- `e` is the `started` event of the submission with token `tok`. -/
def isStartedTok (tok : Nat) : Event → Bool
  | .started t _ _ => t == tok
  | _ => false

/-- `e` is the terminal (`completed` or `failed`) event of the
submission with token `tok`. -/
def isTerminalTok (tok : Nat) : Event → Bool
  | .completed t _ _ => t == tok
  | .failedEv t _ _ _ => t == tok
  | _ => false

/-- An index holding `some` is within bounds. -/
theorem get?_some_lt {α : Type} {l : List α} {i : Nat} {a : α}
    (h : l.get? i = some a) : i < l.length := by
  by_contra hc
  rw [List.get?_eq_none.mpr (by omega)] at h
  cases h

/-- Reading an index of a one-element extension: either an old index
with the old value, or the new last index with the appended value. -/
theorem get?_append_single {α : Type} {l : List α} {a : α} {j : Nat} {e : α}
    (h : (l ++ [a]).get? j = some e) :
    (j < l.length ∧ l.get? j = some e) ∨ (j = l.length ∧ e = a) := by
  rcases Nat.lt_trichotomy j l.length with hj | hj | hj
  · rw [List.get?_append hj] at h
    exact Or.inl ⟨hj, h⟩
  · subst hj
    rw [List.get?_concat_length] at h
    exact Or.inr ⟨rfl, (Option.some_injective _ h).symm⟩
  · have hb := get?_some_lt h
    rw [List.length_append, List.length_singleton] at hb
    omega

/-- `markDone` never changes the number of tasks. -/
theorem markDone_length (tasks : List TaskRec) (k : Nat) :
    (markDone tasks k).length = tasks.length := by
  unfold markDone
  cases h : tasks.get? k
  · rfl
  · exact List.length_set tasks k _

/-- Event-ordering invariant: every scheduled submission's `started`
event has been published, and every published terminal event is preceded
by its submission's `started` event. -/
def EvInv (s : OrchState) : Prop :=
  (∀ tok, tok < s.tasks.length →
    ∃ i e, s.events.get? i = some e ∧ isStartedTok tok e = true) ∧
  (∀ tok j e, s.events.get? j = some e → isTerminalTok tok e = true →
    ∃ i e2, i < j ∧ s.events.get? i = some e2 ∧ isStartedTok tok e2 = true)

/-- Every atomic step preserves the event-ordering invariant. -/
theorem applyStep_evinv (s : OrchState) (d : StepDesc) (h : EvInv s) :
    EvInv (applyStep s d) := by
  obtain ⟨h1, h2⟩ := h
  cases d with
  | submit cat cfg ts env =>
      constructor
      · intro tok htok
        simp only [applyStep, List.length_append, List.length_singleton] at htok
        rcases Nat.lt_or_ge tok s.tasks.length with hlt | hge
        · obtain ⟨i, e, hi, hs⟩ := h1 tok hlt
          exact ⟨i, e, by
            simp only [applyStep]
            rw [List.get?_append (get?_some_lt hi)]
            exact hi, hs⟩
        · have heq : tok = s.tasks.length := by omega
          subst heq
          refine ⟨s.events.length, Event.started s.tasks.length (testId cat ts) cat, ?_, ?_⟩
          · simp only [applyStep]
            exact List.get?_concat_length _ _
          · simp [isStartedTok]
      · intro tok j e hj hterm
        simp only [applyStep] at hj
        rcases get?_append_single hj with ⟨hjl, hjold⟩ | ⟨hjl, henew⟩
        · obtain ⟨i, e2, hij, hi, hs⟩ := h2 tok j e hjold hterm
          exact ⟨i, e2, hij, by
            simp only [applyStep]
            rw [List.get?_append (get?_some_lt hi)]
            exact hi, hs⟩
        · subst henew
          simp [isTerminalTok] at hterm
  | finish k endTs =>
      cases hk : s.tasks.get? k with
      | none =>
          simp only [applyStep, hk]
          exact ⟨h1, h2⟩
      | some t =>
          by_cases ht : t.done
          · simp only [applyStep, hk, ht, if_true]
            exact ⟨h1, h2⟩
          · constructor
            · intro tok htok
              simp only [applyStep, hk, ht, Bool.false_eq_true, if_false,
                markDone_length] at htok
              obtain ⟨i, e, hi, hs⟩ := h1 tok htok
              refine ⟨i, e, ?_, hs⟩
              simp only [applyStep, hk, ht, Bool.false_eq_true, if_false]
              rw [List.get?_append (get?_some_lt hi)]
              exact hi
            · intro tok j e hj hterm
              simp only [applyStep, hk, ht, Bool.false_eq_true, if_false] at hj
              rcases get?_append_single hj with ⟨hjl, hjold⟩ | ⟨hjl, henew⟩
              · obtain ⟨i, e2, hij, hi, hs⟩ := h2 tok j e hjold hterm
                refine ⟨i, e2, hij, ?_, hs⟩
                simp only [applyStep, hk, ht, Bool.false_eq_true, if_false]
                rw [List.get?_append (get?_some_lt hi)]
                exact hi
              · subst henew
                have htok : tok = k := by
                  cases ho : moduleRun t.cat t.cfg t.env <;> rw [ho] at hterm <;>
                    simp [isTerminalTok] at hterm <;> omega
                subst htok
                obtain ⟨i, e2, hi, hs⟩ := h1 tok (get?_some_lt hk)
                refine ⟨i, e2, ?_, ?_, hs⟩
                · have := get?_some_lt hi
                  omega
                · simp only [applyStep, hk, ht, Bool.false_eq_true, if_false]
                  rw [List.get?_append (get?_some_lt hi)]
                  exact hi

/-- The event-ordering invariant holds in every reachable state. -/
theorem exec_evinv (descs : List StepDesc) : EvInv (exec descs) := by
  suffices h : ∀ s, EvInv s → EvInv (descs.foldl applyStep s) by
    refine h initState ⟨?_, ?_⟩
    · intro tok htok
      simp [initState] at htok
    · intro tok j e hj _
      simp [initState] at hj
  induction descs with
  | nil => intro s hs; exact hs
  | cons d t ih => intro s hs; exact ih _ (applyStep_evinv s d hs)

/-- C3: in every reachable execution, every published terminal
(`completed`/`failed`) event of a submitted run is preceded in the event
sequence by that same run's `started` event. -/
theorem claim_C3 (descs : List StepDesc) (tok j : Nat) (e : Event)
    (hj : (exec descs).events.get? j = some e)
    (hterm : isTerminalTok tok e = true) :
    ∃ i e2, i < j ∧ (exec descs).events.get? i = some e2 ∧
      isStartedTok tok e2 = true :=
  (exec_evinv descs).2 tok j e hj hterm

/-- C3 witness: one submission followed by its completion — the
`completed` event at position 1 is preceded by the `started` event. -/
theorem claim_C3_witness :
    (exec [StepDesc.submit .boot_drive cfg1 0 envOk, StepDesc.finish 0 7]).events.get? 1 =
      some (Event.completed 0 "boot_drive_0" .boot_drive) ∧
    ∃ i e2, i < 1 ∧
      (exec [StepDesc.submit .boot_drive cfg1 0 envOk, StepDesc.finish 0 7]).events.get? i =
        some e2 ∧ isStartedTok 0 e2 = true :=
  ⟨by decide,
   claim_C3 [StepDesc.submit .boot_drive cfg1 0 envOk, StepDesc.finish 0 7] 0 1
     (Event.completed 0 "boot_drive_0" .boot_drive) (by decide) (by decide)⟩

/-! ## C2 — store record invariant -/

/-- The claim's per-record invariant: `end_time` set iff terminal,
`results` populated iff `completed`, `error` populated iff `failed`. -/
def RunInv (r : TestResult) : Prop :=
  ((r.status = "completed" ∨ r.status = "failed") ↔ r.end_time ≠ none) ∧
  (r.status = "completed" ↔ r.results ≠ []) ∧
  (r.status = "failed" ↔ r.error_message ≠ none)

/-- Shape of a freshly submitted record: status `running`, no end time,
empty results, no error. -/
def RunningShaped (r : TestResult) : Prop :=
  r.status = "running" ∧ r.end_time = none ∧ r.results = [] ∧ r.error_message = none

/-- A generic `get?`-through-`map` computation rule. -/
theorem get?_map' {α β : Type} (f : α → β) :
    ∀ (l : List α) (j : Nat), (l.map f).get? j = (l.get? j).map f := by
  intro l
  induction l with
  | nil => intro j; cases j <;> rfl
  | cons a t ih => intro j; cases j <;> simp [ih]

/-- Looking up the key just written returns the new value. -/
theorem dbLookup_insert_self {α : Type} (db : List (String × α)) (k : String) (v : α) :
    dbLookup (dbInsert db k v) k = some v := by
  induction db with
  | nil => simp [dbInsert, dbLookup]
  | cons p t ih =>
      by_cases h : p.1 = k
      · simp [dbInsert, dbLookup, h]
      · simp only [dbInsert, h, if_false]
        simp [dbLookup, h, ih]

/-- Writing one key leaves lookups of other keys unchanged. -/
theorem dbLookup_insert_ne {α : Type} (db : List (String × α)) (k : String) (v : α)
    (k' : String) (h : k' ≠ k) :
    dbLookup (dbInsert db k v) k' = dbLookup db k' := by
  induction db with
  | nil => simp [dbInsert, dbLookup, Ne.symm h]
  | cons p t ih =>
      by_cases hp : p.1 = k
      · subst hp
        simp [dbInsert, dbLookup, Ne.symm h]
      · simp only [dbInsert, hp, if_false]
        by_cases hp' : p.1 = k'
        · simp [dbLookup, hp']
        · simp [dbLookup, hp', ih]

/-- Every entry of the dict after an assignment is the assigned pair or
an old entry. -/
theorem mem_dbInsert {α : Type} (db : List (String × α)) (k : String) (v : α)
    (p : String × α) (hp : p ∈ dbInsert db k v) : p = (k, v) ∨ p ∈ db := by
  induction db with
  | nil => simp [dbInsert] at hp; exact Or.inl hp
  | cons q t ih =>
      by_cases h : q.1 = k
      · simp only [dbInsert, h, if_true] at hp
        rcases List.mem_cons.mp hp with h' | h'
        · exact Or.inl h'
        · exact Or.inr (List.mem_cons_of_mem _ h')
      · simp only [dbInsert, h, if_false] at hp
        rcases List.mem_cons.mp hp with h' | h'
        · exact Or.inr (by rw [h']; exact List.mem_cons_self _ _)
        · rcases ih h' with h'' | h''
          · exact Or.inl h''
          · exact Or.inr (List.mem_cons_of_mem _ h'')

/-- Assigning a fresh key appends it to the key sequence. -/
theorem dbKeys_insert_fresh {α : Type} (db : List (String × α)) (k : String) (v : α)
    (hf : k ∉ dbKeys db) : dbKeys (dbInsert db k v) = dbKeys db ++ [k] := by
  induction db with
  | nil => rfl
  | cons q t ih =>
      have hq : q.1 ≠ k := by
        intro he
        exact hf (by rw [← he]; exact List.mem_cons_self _ _)
      have hf' : k ∉ dbKeys t := fun hm => hf (List.mem_cons_of_mem _ hm)
      simp only [dbInsert, hq, if_false, dbKeys, List.map_cons, List.cons_append,
        List.cons.injEq, true_and]
      exact ih hf'

/-- A successful lookup's key occurs in the key sequence. -/
theorem dbLookup_mem_keys {α : Type} {db : List (String × α)} {k : String} {v : α}
    (h : dbLookup db k = some v) : k ∈ dbKeys db := by
  induction db with
  | nil => simp [dbLookup] at h
  | cons q t ih =>
      by_cases hq : q.1 = k
      · rw [← hq]; exact List.mem_cons_self _ _
      · simp only [dbLookup, hq, if_false] at h
        exact List.mem_cons_of_mem _ (ih h)

/-- Lookup of the head key. -/
theorem dbLookup_cons_self {α : Type} (k : String) (v : α) (t : List (String × α)) :
    dbLookup ((k, v) :: t) k = some v := by
  show (if k = k then some v else dbLookup t k) = some v
  rw [if_pos rfl]

/-- Lookup past a head with a different key. -/
theorem dbLookup_cons_ne {α : Type} {k1 k : String} (h : k1 ≠ k) (v1 : α)
    (t : List (String × α)) : dbLookup ((k1, v1) :: t) k = dbLookup t k := by
  show (if k1 = k then some v1 else dbLookup t k) = dbLookup t k
  rw [if_neg h]

/-- In-place mutation at a head holding the key. -/
theorem dbUpdate_cons_eq {α : Type} (k1 : String) (v1 : α) (t : List (String × α))
    (f : α → α) : dbUpdate ((k1, v1) :: t) k1 f = (k1, f v1) :: dbUpdate t k1 f := by
  show (if k1 = k1 then (k1, f v1) else (k1, v1)) :: dbUpdate t k1 f = _
  rw [if_pos rfl]

/-- In-place mutation past a head with a different key. -/
theorem dbUpdate_cons_ne {α : Type} {k1 k : String} (h : k1 ≠ k) (v1 : α)
    (t : List (String × α)) (f : α → α) :
    dbUpdate ((k1, v1) :: t) k f = (k1, v1) :: dbUpdate t k f := by
  show (if k1 = k then (k1, f v1) else (k1, v1)) :: dbUpdate t k f = _
  rw [if_neg h]

/-- In-place mutation maps the looked-up value. -/
theorem dbLookup_update_self {α : Type} (db : List (String × α)) (k : String)
    (f : α → α) : dbLookup (dbUpdate db k f) k = (dbLookup db k).map f := by
  induction db with
  | nil => rfl
  | cons q t ih =>
      rcases q with ⟨k1, v1⟩
      by_cases hq : k1 = k
      · subst hq
        rw [dbUpdate_cons_eq, dbLookup_cons_self, dbLookup_cons_self]
        rfl
      · rw [dbUpdate_cons_ne hq, dbLookup_cons_ne hq, dbLookup_cons_ne hq, ih]

/-- In-place mutation of one key leaves other lookups unchanged. -/
theorem dbLookup_update_ne {α : Type} (db : List (String × α)) (k : String)
    (f : α → α) (k' : String) (h : k' ≠ k) :
    dbLookup (dbUpdate db k f) k' = dbLookup db k' := by
  induction db with
  | nil => rfl
  | cons q t ih =>
      rcases q with ⟨k1, v1⟩
      by_cases hq : k1 = k
      · subst hq
        rw [dbUpdate_cons_eq, dbLookup_cons_ne (Ne.symm h), dbLookup_cons_ne (Ne.symm h), ih]
      · by_cases hq' : k1 = k'
        · subst hq'
          rw [dbUpdate_cons_ne hq, dbLookup_cons_self, dbLookup_cons_self]
        · rw [dbUpdate_cons_ne hq, dbLookup_cons_ne hq', dbLookup_cons_ne hq', ih]

/-- Every entry after an in-place mutation is a mutated old entry under
the key or an untouched old entry under another key. -/
theorem mem_dbUpdate {α : Type} (db : List (String × α)) (k : String) (f : α → α)
    (p : String × α) (hp : p ∈ dbUpdate db k f) :
    (∃ q ∈ db, q.1 = k ∧ p = (q.1, f q.2)) ∨ (p ∈ db ∧ p.1 ≠ k) := by
  induction db with
  | nil => simp [dbUpdate] at hp
  | cons q t ih =>
      rcases q with ⟨k1, v1⟩
      by_cases hk : k1 = k
      · subst hk
        rw [dbUpdate_cons_eq] at hp
        rcases List.mem_cons.mp hp with h' | h'
        · exact Or.inl ⟨(k1, v1), List.mem_cons_self _ _, rfl, h'⟩
        · rcases ih h' with ⟨q, hq, hqk, he⟩ | ⟨hm, hne⟩
          · exact Or.inl ⟨q, List.mem_cons_of_mem _ hq, hqk, he⟩
          · exact Or.inr ⟨List.mem_cons_of_mem _ hm, hne⟩
      · rw [dbUpdate_cons_ne hk] at hp
        rcases List.mem_cons.mp hp with h' | h'
        · subst h'
          exact Or.inr ⟨List.mem_cons_self _ _, hk⟩
        · rcases ih h' with ⟨q, hq, hqk, he⟩ | ⟨hm, hne⟩
          · exact Or.inl ⟨q, List.mem_cons_of_mem _ hq, hqk, he⟩
          · exact Or.inr ⟨List.mem_cons_of_mem _ hm, hne⟩

/-- In-place mutation never changes the key sequence. -/
theorem dbKeys_update {α : Type} (db : List (String × α)) (k : String) (f : α → α) :
    dbKeys (dbUpdate db k f) = dbKeys db := by
  induction db with
  | nil => rfl
  | cons q t ih =>
      rcases q with ⟨k1, v1⟩
      by_cases hq : k1 = k
      · subst hq
        rw [dbUpdate_cons_eq]
        simp [dbKeys, dbKeys] at ih ⊢
        exact ih
      · rw [dbUpdate_cons_ne hq]
        simp [dbKeys] at ih ⊢
        exact ih

/-- With duplicate-free keys, a dict entry is exactly what lookup of its
key returns. -/
theorem dbLookup_of_mem_nodup {α : Type} (db : List (String × α))
    (hnd : (dbKeys db).Nodup) (k : String) (v : α) (hm : (k, v) ∈ db) :
    dbLookup db k = some v := by
  induction db with
  | nil => simp at hm
  | cons q t ih =>
      rcases List.mem_cons.mp hm with h | h
      · rw [← h]
        simp [dbLookup]
      · have hk : k ∈ dbKeys t := List.mem_map.mpr ⟨(k, v), h, rfl⟩
        have hq : q.1 ≠ k := by
          intro he
          have : q.1 ∉ dbKeys t := (List.nodup_cons.mp hnd).1
          exact this (he ▸ hk)
        simp only [dbLookup, hq, if_false]
        exact ih (List.nodup_cons.mp hnd).2 h

/-- Setting the `done` flag of one task leaves the tid sequence
unchanged. -/
theorem map_tid_set :
    ∀ (l : List TaskRec) (k : Nat) (t t' : TaskRec), l.get? k = some t →
      t'.tid = t.tid → (l.set k t').map TaskRec.tid = l.map TaskRec.tid := by
  intro l
  induction l with
  | nil => intro k t t' h _; simp at h
  | cons a l ih =>
      intro k t t' h htid
      cases k with
      | zero =>
          have ha : a = t := by injection h
          subst ha
          simp [List.set, htid]
      | succ n =>
          simp only [List.set, List.map_cons, List.cons.injEq, true_and]
          exact ih n t t' h htid

/-- `markDone` preserves the tid sequence. -/
theorem markDone_map_tid (tasks : List TaskRec) (k : Nat) :
    (markDone tasks k).map TaskRec.tid = tasks.map TaskRec.tid := by
  unfold markDone
  cases h : tasks.get? k with
  | none => rfl
  | some t => exact map_tid_set tasks k t _ h rfl

/-- `markDone` leaves other indices unchanged. -/
theorem markDone_get?_ne (tasks : List TaskRec) (k j : Nat) (h : j ≠ k) :
    (markDone tasks k).get? j = tasks.get? j := by
  unfold markDone
  cases ht : tasks.get? k with
  | none => rfl
  | some t => exact List.get?_set_ne _ _ (fun he => h he.symm)

/-- `markDone` sets the `done` flag at its index. -/
theorem markDone_get?_self (tasks : List TaskRec) (k : Nat) (t : TaskRec)
    (h : tasks.get? k = some t) :
    (markDone tasks k).get? k = some { t with done := true } := by
  unfold markDone
  rw [h, List.get?_set_eq, h]
  rfl

/-- Every task after `markDone` is an old task or the old task at the
marked index with its flag set. -/
theorem mem_markDone (tasks : List TaskRec) (k : Nat) (t' : TaskRec)
    (h : t' ∈ markDone tasks k) :
    t' ∈ tasks ∨ ∃ t, tasks.get? k = some t ∧ t' = { t with done := true } := by
  unfold markDone at h
  cases ht : tasks.get? k with
  | none => rw [ht] at h; exact Or.inl h
  | some t =>
      rw [ht] at h
      rcases List.mem_or_eq_of_mem_set h with h' | h'
      · exact Or.inl h'
      · exact Or.inr ⟨t, rfl, h'⟩

/-- Every module execution that returns results returns a non-empty
mapping: each suite iterates a fixed non-empty catalog. -/
theorem suiteResults_ne_nil (cat : Category) (cfg : TestConfig) (env : ModuleEnv) :
    suiteResults cat cfg env ≠ [] := by
  cases cat <;>
    simp [suiteResults, run_full_boot_test_suite, osTypeList,
      run_full_data_drive_test_suite, run_full_robustness_test_suite,
      run_full_certification_test_suite]

/-- A successful module run's results are non-empty. -/
theorem moduleRun_ok_ne_nil (cat : Category) (cfg : TestConfig) (env : ModuleEnv)
    (rs : List (String × Payload)) (h : moduleRun cat cfg env = .ok rs) : rs ≠ [] := by
  unfold moduleRun at h
  cases hx : env.runExc with
  | some e => rw [hx] at h; cases h
  | none =>
      rw [hx] at h
      injection h with h
      rw [← h]
      exact suiteResults_ne_nil cat cfg env

/-- A running-shaped record satisfies the store invariant. -/
theorem runningShaped_runInv (r : TestResult) (h : RunningShaped r) : RunInv r := by
  obtain ⟨hs, he, hres, hm⟩ := h
  unfold RunInv
  rw [hs, he, hres, hm]
  decide

/-- The terminal mutation applied to a running-shaped record yields a
record satisfying the store invariant, because a successful module run
returns non-empty results and the failure branch leaves the (empty)
results in place. -/
theorem finishApply_runInv (outcome : Except String (List (String × Payload)))
    (endTs : Nat) (r : TestResult) (hr : RunningShaped r)
    (hok : ∀ rs, outcome = .ok rs → rs ≠ []) :
    RunInv (finishApply outcome endTs r) := by
  obtain ⟨hs, he, hres, hm⟩ := hr
  cases outcome with
  | ok rs =>
      have hne := hok rs rfl
      refine ⟨by simp [finishApply], ?_, ?_⟩
      · show ("completed" = "completed") ↔ rs ≠ []
        simp [hne]
      · show ("completed" = "failed") ↔ r.error_message ≠ none
        rw [hm]
        decide
  | error e =>
      refine ⟨by simp [finishApply], ?_, ?_⟩
      · show ("failed" = "completed") ↔ r.results ≠ []
        rw [hres]
        decide
      · show ("failed" = "failed") ↔ some e ≠ none
        simp

/-- Inductive store invariant: every record satisfies the claim's
invariant, every unfinished task's record is running-shaped, task tids
are duplicate-free, every task's tid is a store key, and store keys are
duplicate-free. -/
def StoreInv (s : OrchState) : Prop :=
  (∀ p ∈ s.db, RunInv p.2) ∧
  (∀ k t, s.tasks.get? k = some t → t.done = false →
    ∃ r, dbLookup s.db t.tid = some r ∧ RunningShaped r) ∧
  (s.tasks.map TaskRec.tid).Nodup ∧
  (∀ t ∈ s.tasks, t.tid ∈ dbKeys s.db) ∧
  (dbKeys s.db).Nodup

/-- A submit step with a fresh id preserves the store invariant. -/
theorem storeInv_submit (s : OrchState) (cat : Category) (cfg : TestConfig)
    (ts : Nat) (env : ModuleEnv) (hI : StoreInv s)
    (hf : testId cat ts ∉ dbKeys s.db) :
    StoreInv (applyStep s (.submit cat cfg ts env)) := by
  obtain ⟨h1, h2, h3, h4, h5⟩ := hI
  refine ⟨?_, ?_, ?_, ?_, ?_⟩
  · intro p hp
    simp only [applyStep] at hp
    rcases mem_dbInsert _ _ _ _ hp with h | h
    · rw [h]
      exact runningShaped_runInv _ ⟨rfl, rfl, rfl, rfl⟩
    · exact h1 p h
  · intro k t hk hdone
    simp only [applyStep] at hk
    rcases get?_append_single hk with ⟨hkl, hold⟩ | ⟨hkl, hnew⟩
    · obtain ⟨r, hr, hrs⟩ := h2 k t hold hdone
      refine ⟨r, ?_, hrs⟩
      simp only [applyStep]
      rw [dbLookup_insert_ne s.db _ _ t.tid
        (fun he => hf (by rw [← he]; exact dbLookup_mem_keys hr))]
      exact hr
    · subst hnew
      refine ⟨initRec cat ts, ?_, ⟨rfl, rfl, rfl, rfl⟩⟩
      simp only [applyStep]
      exact dbLookup_insert_self _ _ _
  · simp only [applyStep, List.map_append, List.map_cons, List.map_nil]
    rw [← List.concat_eq_append]
    refine List.Nodup.concat ?_ h3
    intro hmem
    rcases List.mem_map.mp hmem with ⟨t, ht, he⟩
    exact hf (by rw [← he]; exact h4 t ht)
  · intro t ht
    simp only [applyStep] at ht ⊢
    rw [dbKeys_insert_fresh _ _ _ hf]
    rcases List.mem_append.mp ht with h | h
    · exact List.mem_append_left _ (h4 t h)
    · simp only [List.mem_singleton] at h
      rw [h]
      exact List.mem_append_right _ (by simp)
  · simp only [applyStep]
    rw [dbKeys_insert_fresh _ _ _ hf, ← List.concat_eq_append]
    exact List.Nodup.concat hf h5

/-- A finish step preserves the store invariant. -/
theorem storeInv_finish (s : OrchState) (k endTs : Nat) (hI : StoreInv s) :
    StoreInv (applyStep s (.finish k endTs)) := by
  obtain ⟨h1, h2, h3, h4, h5⟩ := hI
  cases hk : s.tasks.get? k with
  | none =>
      simp only [applyStep, hk]
      exact ⟨h1, h2, h3, h4, h5⟩
  | some t =>
      by_cases ht : t.done
      · simp only [applyStep, hk, ht, if_true]
        exact ⟨h1, h2, h3, h4, h5⟩
      · have htf : t.done = false := by revert ht; cases t.done <;> simp
        obtain ⟨r0, hr0, hrs0⟩ := h2 k t hk htf
        have hstep : applyStep s (.finish k endTs) =
            { db := dbUpdate s.db t.tid (finishApply (moduleRun t.cat t.cfg t.env) endTs)
              events := s.events ++
                [match moduleRun t.cat t.cfg t.env with
                 | .ok _ => Event.completed k t.tid t.cat
                 | .error e => Event.failedEv k t.tid t.cat e]
              tasks := markDone s.tasks k } := by
          simp only [applyStep, hk]
          rw [if_neg ht]
        rw [hstep]
        refine ⟨?_, ?_, ?_, ?_, ?_⟩
        · intro p hp
          rcases mem_dbUpdate _ _ _ _ hp with ⟨q, hq, hqk, he⟩ | ⟨hm, _⟩
          · have hl : dbLookup s.db t.tid = some q.2 := by
              rw [← hqk]
              exact dbLookup_of_mem_nodup _ h5 q.1 q.2 (by rw [Prod.mk.eta]; exact hq)
            have hq2 : q.2 = r0 := by
              rw [hl] at hr0
              injection hr0
            rw [he]
            show RunInv (finishApply (moduleRun t.cat t.cfg t.env) endTs q.2)
            rw [hq2]
            exact finishApply_runInv _ _ _ hrs0
              (fun rs hrs => moduleRun_ok_ne_nil t.cat t.cfg t.env rs hrs)
          · exact h1 p hm
        · intro j t' hj hdone'
          by_cases hjk : j = k
          · subst hjk
            rw [markDone_get?_self s.tasks j t hk] at hj
            injection hj with hj
            rw [← hj] at hdone'
            simp at hdone'
          · rw [markDone_get?_ne s.tasks k j hjk] at hj
            obtain ⟨r, hr, hrs⟩ := h2 j t' hj hdone'
            refine ⟨r, ?_, hrs⟩
            have htid : t'.tid ≠ t.tid := by
              intro he
              have hmj : (s.tasks.map TaskRec.tid).get? j = some t'.tid := by
                rw [get?_map' _ _ j, hj]
                rfl
              have hmk : (s.tasks.map TaskRec.tid).get? k = some t.tid := by
                rw [get?_map' _ _ k, hk]
                rfl
              have heq : (s.tasks.map TaskRec.tid).get? j =
                  (s.tasks.map TaskRec.tid).get? k := by
                rw [hmj, hmk, he]
              exact hjk (List.get?_inj (get?_some_lt hmj) h3 heq)
            rw [dbLookup_update_ne _ _ _ _ htid]
            exact hr
        · rw [markDone_map_tid]
          exact h3
        · intro t' ht'
          rw [dbKeys_update]
          rcases mem_markDone s.tasks k t' ht' with h | ⟨t0, ht0, he⟩
          · exact h4 t' h
          · rw [ht0] at hk
            injection hk with hk
            subst hk
            rw [he]
            exact h4 t0 (List.get?_mem ht0)
        · rw [dbKeys_update]
          exact h5

/-- The keys of the store are unchanged by a finish step. -/
theorem finish_keys (s : OrchState) (k endTs : Nat) :
    dbKeys (applyStep s (.finish k endTs)).db = dbKeys s.db := by
  cases hk : s.tasks.get? k with
  | none =>
      simp only [applyStep, hk]
  | some t =>
      simp only [applyStep, hk]
      by_cases ht : t.done
      · rw [if_pos ht]
      · rw [if_neg ht]
        exact dbKeys_update _ _ _

/-- Folding any schedule whose submissions get pairwise-distinct fresh
ids preserves the store invariant. -/
theorem storeInv_fold :
    ∀ (descs : List StepDesc) (s : OrchState), StoreInv s →
      (∀ id ∈ submitIds descs, id ∉ dbKeys s.db) → (submitIds descs).Nodup →
      StoreInv (descs.foldl applyStep s) := by
  intro descs
  induction descs with
  | nil => intro s hI _ _; exact hI
  | cons d rest ih =>
      intro s hI hfresh hnd
      cases d with
      | submit cat cfg ts env =>
          have hcons : submitIds (StepDesc.submit cat cfg ts env :: rest) =
              testId cat ts :: submitIds rest := by
            simp [submitIds]
          rw [hcons] at hfresh hnd
          have hid : testId cat ts ∉ dbKeys s.db := hfresh _ (List.mem_cons_self _ _)
          refine ih (applyStep s (.submit cat cfg ts env))
            (storeInv_submit s cat cfg ts env hI hid) ?_
            (List.nodup_cons.mp hnd).2
          intro id' hid' hmem
          simp only [applyStep] at hmem
          rw [dbKeys_insert_fresh _ _ _ hid] at hmem
          rcases List.mem_append.mp hmem with h | h
          · exact hfresh id' (List.mem_cons_of_mem _ hid') h
          · simp only [List.mem_singleton] at h
            exact (List.nodup_cons.mp hnd).1 (h ▸ hid')
      | finish k endTs =>
          have hrest : submitIds (StepDesc.finish k endTs :: rest) = submitIds rest := by
            simp [submitIds]
          rw [hrest] at hfresh hnd
          refine ih _ (storeInv_finish s k endTs hI) ?_ hnd
          intro id' hid'
          rw [finish_keys]
          exact hfresh id' hid'

/-- C2 (amended): provided no two accepted submissions are allocated the
same run id, every Run record in the store satisfies, at every
observable point: `end_time` set iff status terminal (`completed` or
`failed`), `results` populated iff `completed`, `error` populated iff
`failed`. -/
theorem claim_C2 (descs : List StepDesc) (hnodup : (submitIds descs).Nodup) :
    ∀ p ∈ (exec descs).db, RunInv p.2 := by
  have hinit : StoreInv initState := by
    refine ⟨?_, ?_, ?_, ?_, ?_⟩
    · intro p hp; simp [initState] at hp
    · intro k t hk; simp [initState] at hk
    · simp [initState]
    · intro t ht; simp [initState] at ht
    · simp [initState, dbKeys]
  exact (storeInv_fold descs initState hinit
    (by intro id _ hmem; simp [initState, dbKeys] at hmem) hnodup).1

/-- C2 witness: a collision-free schedule — one submission and its
completion — whose stored record satisfies the invariant. -/
theorem claim_C2_witness :
    (submitIds [StepDesc.submit .boot_drive cfg1 0 envOk, StepDesc.finish 0 7]).Nodup ∧
    RunInv (finishApply (.ok (suiteResults .boot_drive cfg1 envOk)) 7
      (initRec .boot_drive 0)) :=
  ⟨by decide,
   claim_C2 [StepDesc.submit .boot_drive cfg1 0 envOk, StepDesc.finish 0 7] (by decide)
     ("boot_drive_0",
      finishApply (.ok (suiteResults .boot_drive cfg1 envOk)) 7 (initRec .boot_drive 0))
     (by decide)⟩

/-- A schedule with two same-timestamp submissions: both runs share one
id and one store record; the first task completes, then the second fails
with an infrastructure exception. -/
def collideSched : List StepDesc :=
  [StepDesc.submit .boot_drive cfg1 0 envOk, StepDesc.submit .boot_drive cfg1 0 envBad,
   StepDesc.finish 0 7, StepDesc.finish 1 8]

/-- C2 counterexample: after the colliding schedule, the store's single
record has status `failed` with the earlier run's `results` still
populated (and the error set) — refuting `results` populated iff
`completed` at an observable point. -/
theorem claim_C2_counterexample :
    (exec collideSched).db.length = 1 ∧
    (exec collideSched).db.map (fun p => (p.2.status, p.2.results.isEmpty, p.2.error_message)) =
      [("failed", false, some "device unreachable")] := by decide

end DVT
